import Mathlib

/-!
Verification development for the montime-agent-installer telemetry agent.

The repository ships several generations of a single-file Python agent:
* `src/agent.py`               — baseline agent (env-only token, guarded retry sleep)
* `src/agents/v.1.1.0/agent.py`— adds OS detection with PRETTY_NAME/NAME/ID fallback
* `src/agents/v1.2.0/agent.py` — adds cloud detection, config-file token fallback,
                                 module-level token check, uniform retry sleep

Each Python function used by the claims is shallowly embedded below as an
executable Lean definition; external effects (HTTP responses, metadata probes,
psutil readings, the os-release file, environment variables, config.json) are
passed in as explicit parameters, and observable effects (attempt counts,
sleeps, probe order, log/network events) are returned as explicit data.
-/

/-! ## Python-style truthiness for optional strings

Python code such as `if not os_name:` or `x or y` tests truthiness:
`None` and the empty string are falsy, every other string is truthy. -/

def truthy : Option String → Bool
  | none => false
  | some s => s ≠ ""

/-! ## Constants shared by all agent versions (same values in every file) -/

def MAX_RETRIES : Nat := 3

def RETRY_DELAY : Nat := 5

def AGENT_VERSION : String := "v1.3.0"

/-! ## Delivery client (`send_metrics` retry loop)

The endpoint's behaviour on the k-th attempt is a `Response`:
an HTTP response with some status code, or a transport-level exception
(`requests` raising). In both versions HTTP non-200 and exceptions take the
same retry path.
-/

inductive Response where
  | http (status : Nat)
  | exc
  deriving DecidableEq, Repr

/-- Python `response.status_code == 200`; an exception never reaches the
comparison and takes the failure path. -/
def isSuccess : Response → Bool
  | .http s => s == 200
  | .exc => false

inductive Outcome where
  | delivered
  | exhausted
  deriving DecidableEq, Repr

/-- Observable result of one `send_metrics` call: final outcome, number of
POST attempts transmitted, number of `time.sleep(RETRY_DELAY)` calls. -/
structure SendResult where
  outcome : Outcome
  attempts : Nat
  sleeps : Nat
  deriving DecidableEq, Repr

/-- Retry loop of `send_metrics` in `src/agent.py` (lines 78-101):
`for attempt in range(1, MAX_RETRIES + 1)`; HTTP 200 returns True
immediately; on failure it sleeps only when `attempt < MAX_RETRIES`,
otherwise returns False. The argument list carries the remaining attempt
indices. -/
def sendLoopBase (resp : Nat → Response) : List Nat → Nat → Nat → SendResult
  | [], att, sl => ⟨.exhausted, att, sl⟩
  | a :: rest, att, sl =>
    if isSuccess (resp a) then ⟨.delivered, att + 1, sl⟩
    else if a < MAX_RETRIES then
      sendLoopBase resp rest (att + 1) (sl + 1)
    else
      ⟨.exhausted, att + 1, sl⟩

/-- `range(1, MAX_RETRIES + 1)`: the attempt indices. -/
def attemptIdxs : List Nat := List.range' 1 MAX_RETRIES

theorem attemptIdxs_eq : attemptIdxs = [1, 2, 3] := rfl

/-- `send_metrics` of `src/agent.py` (delivery protocol only; the payload it
transmits is modelled separately). `delivered` stands for `return True`,
`exhausted` for `return False`. -/
def send_metrics_base (resp : Nat → Response) : SendResult :=
  sendLoopBase resp attemptIdxs 0 0

/-- Retry loop of `send_metrics` in `src/agents/v1.2.0/agent.py`
(lines 255-266): HTTP 200 returns immediately; on any failure it logs and
then unconditionally runs `time.sleep(RETRY_DELAY)` — there is no
`attempt < MAX_RETRIES` guard, so a sleep also follows the final failed
attempt, after which the loop falls through (exhausted). -/
def sendLoopV12 (resp : Nat → Response) : List Nat → Nat → Nat → SendResult
  | [], att, sl => ⟨.exhausted, att, sl⟩
  | a :: rest, att, sl =>
    if isSuccess (resp a) then ⟨.delivered, att + 1, sl⟩
    else sendLoopV12 resp rest (att + 1) (sl + 1)

/-- `send_metrics` of `src/agents/v1.2.0/agent.py` (delivery protocol only). -/
def send_metrics_v12 (resp : Nat → Response) : SendResult :=
  sendLoopV12 resp attemptIdxs 0 0

example : send_metrics_base (fun k => if k = 3 then .http 200 else .http 500)
    = ⟨.delivered, 3, 2⟩ := by decide

example : send_metrics_base (fun _ => .http 500) = ⟨.exhausted, 3, 2⟩ := by decide

example : send_metrics_v12 (fun _ => .http 500) = ⟨.exhausted, 3, 3⟩ := by decide

example : send_metrics_v12 (fun k => if k = 3 then .http 200 else .exc)
    = ⟨.delivered, 3, 2⟩ := by decide

/-! ## String helpers mirroring the Python string operations used -/

/-- `startsList p s` : `p` is a leading segment of `s` (Python `startswith`). -/
def startsList : List Char → List Char → Bool
  | [], _ => true
  | _ :: _, [] => false
  | a :: as, b :: bs => a == b && startsList as bs

/-- Python `line.startswith(p)`. -/
def strStarts (line p : String) : Bool := startsList p.data line.data

/-- `subList n h` : `n` occurs contiguously inside `h`. -/
def subList (n : List Char) : List Char → Bool
  | [] => startsList n []
  | c :: cs => startsList n (c :: cs) || subList n cs

/-- Python `needle in hay` for strings (substring containment). -/
def strContains (hay needle : String) : Bool := subList needle.data hay.data

example : strContains "abc compute xyz" "compute" = true := by decide
example : strContains "droplet" "droplet_id" = false := by decide

/-! ## Cloud provider detection (`detect_cloud_provider`, v1.2.0 lines 137-166)

Each metadata probe either yields an HTTP response (status and body) or
raises (timeout, connection error, ...); every exception is swallowed and
treated as a non-match. The embedding takes the behaviour of the four
endpoints as a function and additionally returns the list of probes that
were actually issued, in order. -/

inductive Probe where
  | gcp
  | aws
  | azure
  | digitalocean
  deriving DecidableEq, Repr

inductive ProbeResult where
  | ok (status : Nat) (body : String)
  | exc
  deriving DecidableEq, Repr

/-- URL requested by each probe, from the source. -/
def probeUrl : Probe → String
  | .gcp => "http://metadata.google.internal"
  | .aws => "http://169.254.169.254/latest/meta-data/instance-id"
  | .azure => "http://169.254.169.254/metadata/instance?api-version=2021-02-01"
  | .digitalocean => "http://169.254.169.254/metadata/v1.json"

/-- Python `r.status_code == 200` for a probe; a raised exception is
swallowed by the bare `except:` and takes the non-match path. -/
def isOk200 : ProbeResult → Bool
  | .ok s _ => s == 200
  | .exc => false

/-- `r.text` of a probe response (never inspected on the exception path). -/
def bodyOf : ProbeResult → String
  | .ok _ b => b
  | .exc => ""

/-- Azure match: `r.status_code == 200 and "compute" in r.text`. -/
def azureMatch (r : ProbeResult) : Bool :=
  isOk200 r && strContains (bodyOf r) "compute"

/-- DigitalOcean match: `r.status_code == 200 and "droplet_id" in r.text`. -/
def doMatch (r : ProbeResult) : Bool :=
  isOk200 r && strContains (bodyOf r) "droplet_id"

/-- `detect_cloud_provider` of v1.2.0: tries GCP, then AWS, then Azure
(200 and body contains "compute"), then DigitalOcean (200 and body contains
"droplet_id"); first match wins; no match yields ("unknown", "unavailable").
The second component records the probes issued, in order. -/
def detect_cloud_provider (env : Probe → ProbeResult) :
    (String × String) × List Probe :=
  if isOk200 (env .gcp) then (("gcp", "metadata"), [.gcp])
  else if isOk200 (env .aws) then (("aws", "metadata"), [.gcp, .aws])
  else if azureMatch (env .azure) then
    (("azure", "metadata"), [.gcp, .aws, .azure])
  else if doMatch (env .digitalocean) then
    (("digitalocean", "metadata"), [.gcp, .aws, .azure, .digitalocean])
  else (("unknown", "unavailable"), [.gcp, .aws, .azure, .digitalocean])

example :
    detect_cloud_provider (fun p => if p = .gcp then .ok 200 "" else .exc)
      = (("gcp", "metadata"), [.gcp]) := by decide

example :
    detect_cloud_provider (fun _ => .exc)
      = (("unknown", "unavailable"), [.gcp, .aws, .azure, .digitalocean]) := by
  decide

/-! ## Instance type detection (v1.2.0 lines 168-221)

`detect_instance_type_metadata` performs provider-specific metadata requests;
its outcome is abstracted as an `Option String` (`none` for any failure).
`detect_instance_type_heuristic` reads `psutil.cpu_count(logical=True)` and
`psutil.virtual_memory().total`; a psutil exception makes the whole function
return `None`, modelled by `sensors = none`. -/

/-- Round half to even (Python `round` on an exact value):
`roundHalfEven num den` is `round(num / den)`. Python divides floats, but up
to ~2^52 bytes the quotient is exact, so exact rational rounding is faithful. -/
def roundHalfEven (num den : Nat) : Nat :=
  let q := num / den
  let r := num % den
  if 2 * r < den then q
  else if 2 * r > den then q + 1
  else if q % 2 = 0 then q else q + 1

/-- `round(psutil.virtual_memory().total / (1024 ** 3))`. -/
def memGbOf (totalBytes : Nat) : Nat := roundHalfEven totalBytes (1024 ^ 3)

/-- `detect_instance_type_heuristic(provider)` of v1.2.0 (lines 190-199):
only `digitalocean` has a heuristic, producing `f"s-{cpu}vcpu-{mem_gb}gb"`;
every other provider (and any psutil failure) yields `None`. -/
def detect_instance_type_heuristic (provider : String)
    (sensors : Option (Nat × Nat)) : Option String :=
  match sensors with
  | none => none
  | some (cpu, totalBytes) =>
    if provider = "digitalocean" then
      some ("s-" ++ toString cpu ++ "vcpu-" ++ toString (memGbOf totalBytes) ++ "gb")
    else none

example : detect_instance_type_heuristic "digitalocean" (some (4, 8 * 1024 ^ 3))
    = some "s-4vcpu-8gb" := by decide

/-- Instance-type half of `initialize_environment` (v1.2.0 lines 207-220):
if the metadata lookup result is truthy it is kept with source "metadata";
otherwise the heuristic is tried, kept with source "heuristic" when truthy;
otherwise `INSTANCE_TYPE` stays `None` and the source is "unavailable". -/
def resolveInstanceType (metaResult : Option String) (provider : String)
    (sensors : Option (Nat × Nat)) : Option String × String :=
  if truthy metaResult then (metaResult, "metadata")
  else
    let h := detect_instance_type_heuristic provider sensors
    if truthy h then (h, "heuristic") else (none, "unavailable")

example : resolveInstanceType none "digitalocean" (some (4, 8 * 1024 ^ 3))
    = (some "s-4vcpu-8gb", "heuristic") := by decide

example : resolveInstanceType none "aws" (some (4, 8 * 1024 ^ 3))
    = (none, "unavailable") := by decide

/-! ## Outbound payload (`send_metrics` of v1.2.0, lines 227-246)

The payload dict serialized as the JSON body. Numeric readings are carried
as rationals (their exact values are irrelevant to the claims); the point is
which keys appear and whether a value can be JSON `null`. -/

inductive JVal where
  | jnull
  | jstr (s : String)
  | jnum (q : Rat)
  deriving DecidableEq, Repr

/-- Python value of an `Option String` global under `json` serialization:
`None` becomes JSON `null`. -/
def optJ : Option String → JVal
  | none => .jnull
  | some s => .jstr s

/-- `if value: payload[key] = value` — the key/value pair is appended only
when the value is truthy. -/
def osField (key : String) (o : Option String) : List (String × JVal) :=
  match o with
  | some t => if t ≠ "" then [(key, JVal.jstr t)] else []
  | none => []

/-- Payload built by `send_metrics` of v1.2.0 (lines 230-246): the eight
base keys are always present — including `instance_type`, which is the
global `INSTANCE_TYPE` even when that is `None` — while the three OS keys
are added only when the corresponding value is truthy. -/
def buildPayloadV12 (cpu memory disk : Rat) (status : String)
    (osT osN osV : Option String)
    (cloudProvider : String) (instanceType : Option String)
    (detectionSource : String) : List (String × JVal) :=
  [("cpu", .jnum cpu), ("memory", .jnum memory), ("disk", .jnum disk),
   ("status", .jstr status),
   ("agent_version", .jstr AGENT_VERSION),
   ("cloud_provider", .jstr cloudProvider),
   ("instance_type", optJ instanceType),
   ("cloud_detection_source", .jstr detectionSource)]
  ++ osField "os_type" osT ++ osField "os_name" osN ++ osField "os_version" osV

example :
    (buildPayloadV12 1 2 3 "up" none none none "unknown" none "unavailable").map
        Prod.fst
      = ["cpu", "memory", "disk", "status", "agent_version", "cloud_provider",
         "instance_type", "cloud_detection_source"] := by decide

/-! ## Token resolution (v1.2.0 lines 59-71; src/agent.py lines 25, 104-108)

`load_config_token()` opens `config.json` and returns its `api_key` entry,
or `None` on any exception (missing/unreadable file, bad JSON). `ConfigRead`
is the behaviour of that read: `fileErr` for the exception path, `fileOk k`
for a successful parse whose `.get("api_key")` yields `k` (`none` when the
key is missing or null). -/

inductive ConfigRead where
  | fileErr
  | fileOk (apiKey : Option String)
  deriving DecidableEq, Repr

/-- `load_config_token()` of v1.2.0. -/
def load_config_token : ConfigRead → Option String
  | .fileErr => none
  | .fileOk k => k

/-- `SERVER_TOKEN = os.getenv("SERVER_TOKEN") or load_config_token()` of
v1.2.0 (line 66). Returns the resolved token and whether `config.json` was
consulted: a truthy environment value short-circuits `or`. -/
def resolveToken (envTok : Option String) (cfg : ConfigRead) :
    Option String × Bool :=
  if truthy envTok then (envTok, false)
  else (load_config_token cfg, true)

example : resolveToken (some "") .fileErr = (none, true) := by decide
example : resolveToken (some "tok") .fileErr = (some "tok", false) := by decide

/-! ## Startup and event traces (C4)

v1.2.0 resolves and checks the token at module level (lines 59-71), before
`main()` ever runs; `main()` then logs, runs `initialize_environment()`
(which issues the metadata HTTP requests) and enters the sampling loop,
where samples are taken and the payload is POSTed. `src/agent.py` performs
the same check at the top of `main()` (lines 104-108), before the loop.
Observable effects are recorded as an event list. -/

inductive Ev where
  | evLog (s : String)
  | evNetGet (u : String)
  | evNetPost (u : String)
  | evSample
  | evLoopEnter
  deriving DecidableEq, Repr

def isNetEv : Ev → Bool
  | .evNetGet _ => true
  | .evNetPost _ => true
  | _ => false

def isSampleEv : Ev → Bool
  | .evSample => true
  | _ => false

/-- URLs requested by `detect_instance_type_metadata(provider)`
(v1.2.0 lines 168-188): one provider-specific GET for aws/gcp/azure, no
request for any other provider (including digitalocean and unknown). -/
def instTypeProbeUrls (provider : String) : List String :=
  if provider = "aws" then
    ["http://169.254.169.254/latest/meta-data/instance-type"]
  else if provider = "gcp" then
    ["http://metadata.google.internal/computeMetadata/v1/instance/machine-type"]
  else if provider = "azure" then
    ["http://169.254.169.254/metadata/instance?api-version=2021-02-01"]
  else []

structure CloudInfo where
  provider : String
  instanceType : Option String
  source : String
  deriving DecidableEq, Repr

/-- `initialize_environment()` of v1.2.0 (lines 201-222): detects the
provider, then resolves the instance type (metadata first, heuristic
fallback). `instMeta provider` is the value `detect_instance_type_metadata`
returns for the detected provider. Returns the resulting globals and the
network requests issued (log lines elided — no claim mentions them). -/
def initialize_environment (probes : Probe → ProbeResult)
    (instMeta : String → Option String) (sensors : Option (Nat × Nat)) :
    CloudInfo × List Ev :=
  let pr := detect_cloud_provider probes
  let provider := pr.1.1
  let it := resolveInstanceType (instMeta provider) provider sensors
  (⟨provider, it.1, it.2⟩,
    pr.2.map (fun p => Ev.evNetGet (probeUrl p))
      ++ (instTypeProbeUrls provider).map Ev.evNetGet)

/-- v1.2.0 startup (module level through entering the `while True` loop):
token resolution and the fatal check happen first; only a truthy token
reaches `main()`, `initialize_environment()` and the loop. Result: exit
code (`some 1` for `sys.exit(1)`, `none` when the loop is entered) and the
events produced before/at loop entry. -/
def agentStartV12 (envTok : Option String) (cfg : ConfigRead)
    (probes : Probe → ProbeResult) (instMeta : String → Option String)
    (sensors : Option (Nat × Nat)) : Option Nat × List Ev :=
  let tok := (resolveToken envTok cfg).1
  if truthy tok then
    let ie := initialize_environment probes instMeta sensors
    (none, Ev.evLog "Montime Agent started" :: ie.2 ++ [Ev.evLoopEnter])
  else
    (some 1, [Ev.evLog "ERROR: SERVER_TOKEN not found"])

/-- `main()` of `src/agent.py` up to entering the loop: the token comes
from the environment only; a falsy token logs two lines and exits 1. -/
def mainStartBase (envTok : Option String) : Option Nat × List Ev :=
  if truthy envTok then
    (none, [Ev.evLog "Montime.io Agent Started", Ev.evLoopEnter])
  else
    (some 1,
     [Ev.evLog "ERROR: SERVER_TOKEN environment variable is not set",
      Ev.evLog "Usage: export SERVER_TOKEN=\x27your-server-token\x27 && python3 agent.py"])

/-! ## OS detection: os-release parsing (C7)

Python string operations used by the parsers. -/

def pySpace (c : Char) : Bool :=
  c == ' ' || c == '\t' || c == '\n' || c == '\r' || c == '\x0B' || c == '\x0C'

/-- Remove all leading and trailing characters satisfying `p`
(Python `str.strip` semantics). -/
def stripBy (p : Char → Bool) (s : String) : String :=
  ⟨((s.data.dropWhile p).reverse.dropWhile p).reverse⟩

def pyStrip (s : String) : String := stripBy pySpace s

def stripChar (c : Char) (s : String) : String := stripBy (· == c) s

/-- Python `line.split("=", 1)[1]`: everything after the first `=`
(the callers guard with `startswith`, so a `=` is present). -/
def afterEq (s : String) : String :=
  ⟨(s.data.dropWhile (fun c => c != '=')).tail⟩

/-- v.1.1.0 value cleanup: `.strip().strip(CHR(34)).strip(CHR(39))`. -/
def cleanV11 (s : String) : String := stripChar '\x27' (stripChar '\x22' (pyStrip s))

/-- v1.2.0 value cleanup: `.strip().strip(CHR(34))`. -/
def cleanV12s (s : String) : String := stripChar '\x22' (pyStrip s)

example : cleanV11 " \x22Ubuntu 22.04\x22 " = "Ubuntu 22.04" := by decide

/-- ASCII decimal digit (the os-release content matched is ASCII). -/
def isDigitC (c : Char) : Bool := '0' ≤ c && c ≤ '9'

/-- Try to match the pattern digits `.` digits at the head of `cs`
(the greedy match of the version regex anchored at this position). -/
def matchVerAt (cs : List Char) : Option (List Char) :=
  let d1 := cs.takeWhile isDigitC
  if d1 = [] then none
  else
    match cs.drop d1.length with
    | '.' :: rest =>
      let d2 := rest.takeWhile isDigitC
      if d2 = [] then none else some (d1 ++ '.' :: d2)
    | _ => none

/-- Leftmost match of the version pattern: `re.search` of digits-dot-digits. -/
def searchVerList : List Char → Option String
  | [] => none
  | c :: cs =>
    match matchVerAt (c :: cs) with
    | some m => some ⟨m⟩
    | none => searchVerList cs

def searchVer (s : String) : Option String := searchVerList s.data

example : searchVer "Ubuntu 22.04.3 LTS" = some "22.04" := by decide
example : searchVer "rolling" = none := by decide

/-- Parser state for the os-release loop: the `os_name`/`os_version`
local variables (Python `None` ↦ `none`). -/
structure OsParseSt where
  os_name : Option String
  os_version : Option String
  deriving DecidableEq, Repr

/-- One line of the v.1.1.0 os-release loop (src/agents/v.1.1.0/agent.py
lines 67-82). The `elif` chain: a `PRETTY_NAME=` line always assigns
`os_name` (no guard), `NAME=`/`ID=` lines assign it only when it is falsy,
`VERSION_ID=` always assigns `os_version`, a `VERSION=` line assigns it
(only when falsy) from the first digits-dot-digits match, if any. -/
def osLineStepV11 (st : OsParseSt) (line : String) : OsParseSt :=
  if strStarts line "PRETTY_NAME=" then
    { st with os_name := some (cleanV11 (afterEq line)) }
  else if strStarts line "NAME=" && !truthy st.os_name then
    { st with os_name := some (cleanV11 (afterEq line)) }
  else if strStarts line "ID=" && !truthy st.os_name then
    { st with os_name := some (cleanV11 (afterEq line)) }
  else if strStarts line "VERSION_ID=" then
    { st with os_version := some (cleanV11 (afterEq line)) }
  else if strStarts line "VERSION=" && !truthy st.os_version then
    match searchVer (cleanV11 (afterEq line)) with
    | some m => { st with os_version := some m }
    | none => st
  else st

/-- Linux branch of v.1.1.0 `detect_os` applied to the os-release lines
(`content.split(newline)`). -/
def parseOsReleaseV11 (lines : List String) : OsParseSt :=
  lines.foldl osLineStepV11 ⟨none, none⟩

/-- v.1.1.0 `detect_os` on Linux: `os_type` is always `"linux"`; a file
read error (`IOError`/`OSError`) leaves name and version `None`. -/
def detect_os_v11 (fileContent : Option (List String)) :
    Option String × Option String × Option String :=
  match fileContent with
  | none => (some "linux", none, none)
  | some lines =>
    let st := parseOsReleaseV11 lines
    (some "linux", st.os_name, st.os_version)

/-- One line of the v1.2.0 os-release loop (src/agents/v1.2.0/agent.py
lines 113-117): only `PRETTY_NAME=` and `VERSION_ID=` are consulted, both
assigning unconditionally. -/
def osLineStepV12 (st : OsParseSt) (line : String) : OsParseSt :=
  if strStarts line "PRETTY_NAME=" then
    { st with os_name := some (cleanV12s (afterEq line)) }
  else if strStarts line "VERSION_ID=" then
    { st with os_version := some (cleanV12s (afterEq line)) }
  else st

/-- Linux branch of v1.2.0 `detect_os` applied to the os-release lines. -/
def parseOsReleaseV12 (lines : List String) : OsParseSt :=
  lines.foldl osLineStepV12 ⟨none, none⟩

example : (parseOsReleaseV11 ["NAME=\x22Foo\x22", "PRETTY_NAME=\x22Bar\x22"]).os_name
    = some "Bar" := by decide

example : (parseOsReleaseV12 ["NAME=\x22Foo\x22"]).os_name = none := by decide

/-! ## OS detection caching (C8)

v1.2.0 lines 100-128: `_os_cache` starts as `None`; `detect_os` returns it
when truthy (a stored 3-tuple is always truthy in Python, even
`(None, None, None)`), otherwise performs the platform detection once,
stores it, and returns it. `reads` counts how many times the platform
sources (sys.platform, /etc/os-release, platform module) were consulted. -/

structure OsCacheSt where
  cache : Option (Option String × Option String × Option String)
  reads : Nat
  deriving DecidableEq, Repr

/-- Initial module state: `_os_cache = None`, nothing read yet. -/
def osCacheInit : OsCacheSt := ⟨none, 0⟩

/-- `detect_os()` of v1.2.0 as a state transformer. `compute` is the value
the platform-detection body would produce if it ran now. -/
def detect_os_cached (compute : Option String × Option String × Option String)
    (st : OsCacheSt) :
    (Option String × Option String × Option String) × OsCacheSt :=
  match st.cache with
  | some t => (t, st)
  | none => (compute, ⟨some compute, st.reads + 1⟩)

/-! ## Sampling loop (C9)

v1.2.0 `main` lines 279-293: each iteration runs the cycle body inside
`try`; `KeyboardInterrupt` logs and `sys.exit(0)`; any other exception is
logged and the iteration falls through to `time.sleep(INTERVAL)`. The
behaviour of cycle `n` is a `CycleOutcome`. -/

inductive CycleOutcome where
  | ok
  | err (msg : String)
  | interrupt
  deriving DecidableEq, Repr

inductive IterResult where
  | next (logged : List String)
  | exitClean (code : Nat) (logged : List String)
  deriving DecidableEq, Repr

/-- One iteration of the v1.2.0 loop body (the `try`/`except` dispatch). -/
def loopIterV12 : CycleOutcome → IterResult
  | .ok => .next []
  | .err m => .next ["Unexpected error: " ++ m]
  | .interrupt => .exitClean 0 ["Agent stopped"]

/-- State of the loop after `n` iterations with cycle behaviours `outs`:
`none` while still running, `some c` once the process exited with code `c`. -/
def runLoopV12 (outs : Nat → CycleOutcome) : Nat → Option Nat
  | 0 => none
  | n + 1 =>
    match runLoopV12 outs n with
    | some c => some c
    | none =>
      match loopIterV12 (outs n) with
      | .next _ => none
      | .exitClean c _ => some c

example : runLoopV12 (fun _ => .err "boom") 100 = none := by decide
example : runLoopV12 (fun n => if n = 2 then .interrupt else .ok) 5 = some 0 := by
  decide

/-! # Theorems -/

/-! ## Helper lemmas -/

theorem isSuccess_false_of_ne (r : Response) (h : r ≠ .http 200) :
    isSuccess r = false := by
  cases r with
  | http s =>
    simp only [isSuccess, beq_eq_false_iff_ne, ne_eq]
    intro hs
    exact h (by rw [hs])
  | exc => rfl

/-! ## C1 -/

/-- C1: for a delivery endpoint returning HTTP 500 on the first two attempts
and HTTP 200 on the third, `send_metrics` (both `src/agent.py` and v1.2.0)
returns delivered after exactly 3 transmission attempts and exactly 2
inter-attempt sleeps; more generally, the first attempt answered with
HTTP 200 ends the retry loop at once, with no further attempt or sleep. -/
theorem C1_send_stops_on_200 (resp : Nat → Response)
    (h1 : resp 1 = .http 500) (h2 : resp 2 = .http 500)
    (h3 : resp 3 = .http 200) :
    send_metrics_base resp = ⟨.delivered, 3, 2⟩ ∧
    send_metrics_v12 resp = ⟨.delivered, 3, 2⟩ ∧
    (∀ r : Nat → Response, ∀ j, 1 ≤ j → j ≤ MAX_RETRIES →
      r j = .http 200 → (∀ i, 1 ≤ i → i < j → r i ≠ .http 200) →
      send_metrics_base r = ⟨.delivered, j, j - 1⟩ ∧
      send_metrics_v12 r = ⟨.delivered, j, j - 1⟩) := by
  have key : ∀ r : Nat → Response, ∀ j, 1 ≤ j → j ≤ MAX_RETRIES →
      r j = .http 200 → (∀ i, 1 ≤ i → i < j → r i ≠ .http 200) →
      send_metrics_base r = ⟨.delivered, j, j - 1⟩ ∧
      send_metrics_v12 r = ⟨.delivered, j, j - 1⟩ := by
    intro r j hj1 hj3 hjs hprev
    have hM : MAX_RETRIES = 3 := rfl
    rw [hM] at hj3
    interval_cases j
    · have s1 : isSuccess (r 1) = true := by rw [hjs]; rfl
      exact ⟨by simp [send_metrics_base, attemptIdxs_eq, sendLoopBase, s1],
             by simp [send_metrics_v12, attemptIdxs_eq, sendLoopV12, s1]⟩
    · have s1 : isSuccess (r 1) = false :=
        isSuccess_false_of_ne _ (hprev 1 (by norm_num) (by norm_num))
      have s2 : isSuccess (r 2) = true := by rw [hjs]; rfl
      exact ⟨by simp [send_metrics_base, attemptIdxs_eq, sendLoopBase, s1, s2,
               MAX_RETRIES],
             by simp [send_metrics_v12, attemptIdxs_eq, sendLoopV12, s1, s2]⟩
    · have s1 : isSuccess (r 1) = false :=
        isSuccess_false_of_ne _ (hprev 1 (by norm_num) (by norm_num))
      have s2 : isSuccess (r 2) = false :=
        isSuccess_false_of_ne _ (hprev 2 (by norm_num) (by norm_num))
      have s3 : isSuccess (r 3) = true := by rw [hjs]; rfl
      exact ⟨by simp [send_metrics_base, attemptIdxs_eq, sendLoopBase, s1, s2, s3,
               MAX_RETRIES],
             by simp [send_metrics_v12, attemptIdxs_eq, sendLoopV12, s1, s2, s3]⟩
  have hp : ∀ i, 1 ≤ i → i < 3 → resp i ≠ Response.http 200 := by
    intro i hi1 hi3
    interval_cases i
    · rw [h1]; simp
    · rw [h2]; simp
  exact ⟨(key resp 3 (by norm_num) (by decide) h3 hp).1,
         (key resp 3 (by norm_num) (by decide) h3 hp).2, key⟩

/-- Witness for C1 at the concrete endpoint behaviour 500, 500, 200. -/
theorem C1_witness :
    send_metrics_base (fun k => if k = 3 then Response.http 200 else .http 500)
        = ⟨.delivered, 3, 2⟩ ∧
    send_metrics_v12 (fun k => if k = 3 then Response.http 200 else .http 500)
        = ⟨.delivered, 3, 2⟩ := by
  have h := C1_send_stops_on_200
    (fun k => if k = 3 then Response.http 200 else .http 500)
    (by decide) (by decide) (by decide)
  exact ⟨h.1, h.2.1⟩

/-! ## C2 -/

/-- C2 counterexample: with an endpoint that always answers HTTP 500, the
v1.2.0 `send_metrics` — one of the two functions the claim covers — makes
MAX_RETRIES attempts but performs MAX_RETRIES inter-attempt delays, i.e.
a delay also follows the final attempt, contradicting "an inter-attempt
delay only when attempts remain". -/
theorem C2_counterexample :
    send_metrics_v12 (fun _ => Response.http 500)
        = ⟨.exhausted, MAX_RETRIES, MAX_RETRIES⟩ ∧
    MAX_RETRIES ≠ MAX_RETRIES - 1 := by decide

/-- C2 (amended): when no attempt succeeds within MAX_RETRIES attempts,
both versions return exhausted after exactly MAX_RETRIES attempts and make
no further transmission; `src/agent.py` sleeps only between attempts
(MAX_RETRIES - 1 delays, none after the final attempt), while v1.2.0 sleeps
after every failed attempt including the final one (MAX_RETRIES delays). -/
theorem C2_exhausted_after_max_retries (resp : Nat → Response)
    (hfail : ∀ i, 1 ≤ i → i ≤ MAX_RETRIES → resp i ≠ .http 200) :
    send_metrics_base resp = ⟨.exhausted, MAX_RETRIES, MAX_RETRIES - 1⟩ ∧
    send_metrics_v12 resp = ⟨.exhausted, MAX_RETRIES, MAX_RETRIES⟩ := by
  have s1 : isSuccess (resp 1) = false :=
    isSuccess_false_of_ne _ (hfail 1 (by norm_num) (by decide))
  have s2 : isSuccess (resp 2) = false :=
    isSuccess_false_of_ne _ (hfail 2 (by norm_num) (by decide))
  have s3 : isSuccess (resp 3) = false :=
    isSuccess_false_of_ne _ (hfail 3 (by norm_num) (by decide))
  exact ⟨by simp [send_metrics_base, attemptIdxs_eq, sendLoopBase, s1, s2, s3,
           MAX_RETRIES],
         by simp [send_metrics_v12, attemptIdxs_eq, sendLoopV12, s1, s2, s3,
           MAX_RETRIES]⟩

/-- Witness for C2 at the always-failing endpoint. -/
theorem C2_witness :
    send_metrics_base (fun _ => Response.http 500)
        = ⟨.exhausted, MAX_RETRIES, MAX_RETRIES - 1⟩ ∧
    send_metrics_v12 (fun _ => Response.http 500)
        = ⟨.exhausted, MAX_RETRIES, MAX_RETRIES⟩ :=
  C2_exhausted_after_max_retries (fun _ => Response.http 500)
    (by intro i _ _; simp)

/-! ## C3 -/

theorem isOk200_false (r : ProbeResult) (h : ∀ b, r ≠ .ok 200 b) :
    isOk200 r = false := by
  cases r with
  | ok s b =>
    simp only [isOk200, beq_eq_false_iff_ne, ne_eq]
    intro hs
    exact h b (by rw [hs])
  | exc => rfl

theorem bodyMatch_false (needle : String) (r : ProbeResult)
    (h : ∀ b, r = .ok 200 b → strContains b needle = false) :
    (isOk200 r && strContains (bodyOf r) needle) = false := by
  cases r with
  | ok s b =>
    by_cases hs : s = 200
    · subst hs
      simp [isOk200, bodyOf, h b rfl]
    · simp [isOk200, hs]
  | exc => rfl

/-- C3: `detect_cloud_provider` probes in the fixed order GCP, AWS, Azure,
DigitalOcean, first responder wins: a GCP probe answering HTTP 200 yields
("gcp", "metadata") with only the GCP probe issued (AWS/Azure/DO never
attempted); when no probe matches, it returns ("unknown", "unavailable")
after issuing all four probes in order. -/
theorem C3_probe_order_first_wins (env : Probe → ProbeResult) :
    (∀ b, env .gcp = .ok 200 b →
      detect_cloud_provider env = (("gcp", "metadata"), [.gcp])) ∧
    ((∀ b, env .gcp ≠ .ok 200 b) → (∀ b, env .aws ≠ .ok 200 b) →
     (∀ b, env .azure = .ok 200 b → strContains b "compute" = false) →
     (∀ b, env .digitalocean = .ok 200 b → strContains b "droplet_id" = false) →
     detect_cloud_provider env
       = (("unknown", "unavailable"), [.gcp, .aws, .azure, .digitalocean])) := by
  constructor
  · intro b hb
    simp [detect_cloud_provider, hb, isOk200]
  · intro h1 h2 h3 h4
    have g1 := isOk200_false _ h1
    have g2 := isOk200_false _ h2
    have g3 : azureMatch (env .azure) = false := bodyMatch_false _ _ h3
    have g4 : doMatch (env .digitalocean) = false := bodyMatch_false _ _ h4
    simp [detect_cloud_provider, g1, g2, g3, g4]

/-- Witness for C3: a responder answering only the GCP probe, and a dead
environment where no probe matches. -/
theorem C3_witness :
    detect_cloud_provider
        (fun p => if p = .gcp then ProbeResult.ok 200 "" else .exc)
      = (("gcp", "metadata"), [.gcp]) ∧
    detect_cloud_provider (fun _ => ProbeResult.exc)
      = (("unknown", "unavailable"), [.gcp, .aws, .azure, .digitalocean]) :=
  ⟨(C3_probe_order_first_wins _).1 "" rfl,
   (C3_probe_order_first_wins _).2 (by intro b; simp) (by intro b; simp)
     (by simp) (by simp)⟩

/-! ## C4 -/

theorem gcp_mem_trace (env : Probe → ProbeResult) :
    Probe.gcp ∈ (detect_cloud_provider env).2 := by
  unfold detect_cloud_provider
  split_ifs <;> simp

/-- C4: when the delivery credential (SERVER_TOKEN or its config.json
equivalent) resolves to absent, v1.2.0 terminates with exit code 1 having
produced only the error log — no network request, no sample, and the
sampling loop is never entered; `src/agent.py` likewise exits 1 from
`main()` before its loop. Conversely a truthy token does reach the
metadata network calls and the loop, showing the fatal check comes first. -/
theorem C4_missing_token_fatal (envTok : Option String) (cfg : ConfigRead)
    (probes : Probe → ProbeResult) (instMeta : String → Option String)
    (sensors : Option (Nat × Nat))
    (habs : truthy (resolveToken envTok cfg).1 = false) :
    agentStartV12 envTok cfg probes instMeta sensors
        = (some 1, [Ev.evLog "ERROR: SERVER_TOKEN not found"]) ∧
    (∀ e ∈ (agentStartV12 envTok cfg probes instMeta sensors).2,
      isNetEv e = false ∧ isSampleEv e = false ∧ e ≠ .evLoopEnter) ∧
    (truthy envTok = false →
      mainStartBase envTok
        = (some 1,
           [Ev.evLog "ERROR: SERVER_TOKEN environment variable is not set",
            Ev.evLog "Usage: export SERVER_TOKEN=\x27your-server-token\x27 && python3 agent.py"])) ∧
    (∀ tok2 : Option String, truthy tok2 = true →
      Ev.evNetGet (probeUrl .gcp)
          ∈ (agentStartV12 tok2 cfg probes instMeta sensors).2 ∧
      Ev.evLoopEnter ∈ (agentStartV12 tok2 cfg probes instMeta sensors).2) := by
  have h1 : agentStartV12 envTok cfg probes instMeta sensors
      = (some 1, [Ev.evLog "ERROR: SERVER_TOKEN not found"]) := by
    simp [agentStartV12, habs]
  refine ⟨h1, ?_, ?_, ?_⟩
  · rw [h1]
    intro e he
    simp only [List.mem_singleton] at he
    subst he
    exact ⟨rfl, rfl, by simp⟩
  · intro he
    simp [mainStartBase, he]
  · intro tok2 ht
    have h2 : truthy (resolveToken tok2 cfg).1 = true := by
      simp [resolveToken, ht]
    have hg : Ev.evNetGet (probeUrl .gcp)
        ∈ (initialize_environment probes instMeta sensors).2 := by
      simp only [initialize_environment, List.mem_append, List.mem_map]
      exact Or.inl ⟨.gcp, gcp_mem_trace probes, rfl⟩
    have h3 : agentStartV12 tok2 cfg probes instMeta sensors
        = (none, Ev.evLog "Montime Agent started"
            :: (initialize_environment probes instMeta sensors).2
            ++ [Ev.evLoopEnter]) := by
      simp [agentStartV12, h2]
    rw [h3]
    exact ⟨List.mem_cons_of_mem _ (List.mem_append_left _ hg),
           List.mem_cons_of_mem _
             (List.mem_append_right _ (List.mem_singleton_self _))⟩

/-- Witness for C4: unset environment token and unreadable config.json. -/
theorem C4_witness :
    agentStartV12 none .fileErr (fun _ => .exc) (fun _ => none) none
      = (some 1, [Ev.evLog "ERROR: SERVER_TOKEN not found"]) :=
  (C4_missing_token_fatal none .fileErr (fun _ => .exc) (fun _ => none) none
    (by decide)).1

/-! ## C5 -/

theorem osField_falsy (key : String) (o : Option String)
    (h : truthy o = false) : osField key o = [] := by
  rcases o with _ | t
  · rfl
  · simp only [truthy, ne_eq, decide_eq_false_iff_not, not_not] at h
    subst h
    simp [osField]

theorem mem_osField_key (key k : String) (o : Option String) (v : JVal)
    (h : (k, v) ∈ osField key o) : k = key := by
  rcases o with _ | t
  · simp [osField] at h
  · by_cases ht : t = ""
    · subst ht; simp [osField] at h
    · simp [osField, ht] at h
      exact h.1

/-- C5 counterexample: in the payload built by v1.2.0's `send_metrics` with
an undetermined instance type (the global `INSTANCE_TYPE` still `None`, as
when the provider is unknown), the optional field `instance_type` is not
omitted: it is sent with the JSON null value. -/
theorem C5_counterexample :
    ("instance_type", JVal.jnull)
        ∈ buildPayloadV12 1 2 3 "up" none none none "unknown" none
            "unavailable" := by
  simp [buildPayloadV12, optJ]

/-- C5 (amended): the OS fields `os_type`/`os_name`/`os_version` are indeed
omitted from the payload when absent (falsy) and carry their string value
when present; but the cloud field `instance_type` is always included —
serialized as null when the instance type is undetermined. -/
theorem C5_payload_fields (cpu memory disk : Rat) (status : String)
    (osT osN osV : Option String) (cp : String) (it : Option String)
    (ds : String) :
    (truthy osT = false → ∀ v,
      ("os_type", v)
        ∉ buildPayloadV12 cpu memory disk status osT osN osV cp it ds) ∧
    (truthy osN = false → ∀ v,
      ("os_name", v)
        ∉ buildPayloadV12 cpu memory disk status osT osN osV cp it ds) ∧
    (truthy osV = false → ∀ v,
      ("os_version", v)
        ∉ buildPayloadV12 cpu memory disk status osT osN osV cp it ds) ∧
    (∀ t, osT = some t → t ≠ "" →
      ("os_type", JVal.jstr t)
        ∈ buildPayloadV12 cpu memory disk status osT osN osV cp it ds) ∧
    ("instance_type", optJ it)
        ∈ buildPayloadV12 cpu memory disk status osT osN osV cp it ds ∧
    (it = none →
      ("instance_type", JVal.jnull)
        ∈ buildPayloadV12 cpu memory disk status osT osN osV cp it ds) := by
  refine ⟨?_, ?_, ?_, ?_, ?_, ?_⟩
  · intro hf v hmem
    rw [buildPayloadV12, osField_falsy _ _ hf] at hmem
    simp only [List.append_nil, List.append_assoc, List.mem_append,
      List.mem_cons, List.not_mem_nil, Prod.mk.injEq] at hmem
    rcases hmem with h | h
    · simp at h
    · rcases h with h | h <;> exact absurd (mem_osField_key _ _ _ _ h) (by simp)
  · intro hf v hmem
    rw [buildPayloadV12, osField_falsy _ _ hf] at hmem
    simp only [List.append_assoc, List.mem_append, List.mem_cons,
      List.not_mem_nil, Prod.mk.injEq] at hmem
    rcases hmem with h | h
    · simp at h
    · rcases h with h | h
      · exact absurd (mem_osField_key _ _ _ _ h) (by simp)
      · rcases h with h | h
        · simp at h
        · exact absurd (mem_osField_key _ _ _ _ h) (by simp)
  · intro hf v hmem
    rw [buildPayloadV12, osField_falsy _ _ hf] at hmem
    simp only [List.append_nil, List.append_assoc, List.mem_append,
      List.mem_cons, List.not_mem_nil, Prod.mk.injEq] at hmem
    rcases hmem with h | h
    · simp at h
    · rcases h with h | h <;> exact absurd (mem_osField_key _ _ _ _ h) (by simp)
  · intro t hoT ht
    subst hoT
    simp [buildPayloadV12, osField, ht]
  · simp [buildPayloadV12]
  · intro hit
    subst hit
    simp [buildPayloadV12, optJ]

/-- Witness for C5 at a concrete payload with a detected OS and an
undetermined instance type. -/
theorem C5_witness :
    ("os_name", JVal.jnull)
        ∉ buildPayloadV12 1 2 3 "up" (some "linux") none none "unknown" none
            "unavailable" ∧
    ("instance_type", JVal.jnull)
        ∈ buildPayloadV12 1 2 3 "up" (some "linux") none none "unknown" none
            "unavailable" := by
  have h := C5_payload_fields 1 2 3 "up" (some "linux") none none "unknown"
    none "unavailable"
  exact ⟨h.2.1 rfl JVal.jnull, h.2.2.2.2.2 rfl⟩

/-! ## C6 -/

/-- C6: the heuristic synthesizes "s-{cpu}vcpu-{mem}gb" only for the
digitalocean provider — with 4 logical CPUs and 8 GiB total memory it
yields exactly "s-4vcpu-8gb", and the instance-type resolution of
`initialize_environment` records it with detection_source "heuristic" when
the metadata lookup produced nothing; every other provider has no
heuristic. -/
theorem C6_heuristic_digitalocean_only (p : String)
    (sensors : Option (Nat × Nat)) (hp : p ≠ "digitalocean") :
    detect_instance_type_heuristic "digitalocean" (some (4, 8 * 1024 ^ 3))
        = some "s-4vcpu-8gb" ∧
    resolveInstanceType none "digitalocean" (some (4, 8 * 1024 ^ 3))
        = (some "s-4vcpu-8gb", "heuristic") ∧
    detect_instance_type_heuristic p sensors = none := by
  refine ⟨by decide, by decide, ?_⟩
  rcases sensors with _ | ⟨cpu, mem⟩
  · rfl
  · simp [detect_instance_type_heuristic, hp]

/-- Witness for C6 at provider "aws" with working sensors. -/
theorem C6_witness :
    detect_instance_type_heuristic "digitalocean" (some (4, 8 * 1024 ^ 3))
        = some "s-4vcpu-8gb" ∧
    resolveInstanceType none "digitalocean" (some (4, 8 * 1024 ^ 3))
        = (some "s-4vcpu-8gb", "heuristic") ∧
    detect_instance_type_heuristic "aws" (some (4, 8 * 1024 ^ 3)) = none :=
  C6_heuristic_digitalocean_only "aws" (some (4, 8 * 1024 ^ 3)) (by decide)

/-! ## C7 -/

theorem parseV12_no_pretty (lines : List String) (st : OsParseSt)
    (h : ∀ l ∈ lines, strStarts l "PRETTY_NAME=" = false) :
    (lines.foldl osLineStepV12 st).os_name = st.os_name := by
  induction lines generalizing st with
  | nil => rfl
  | cons l ls ih =>
    have hl := h l (List.mem_cons_self l ls)
    have hrest : ∀ x ∈ ls, strStarts x "PRETTY_NAME=" = false :=
      fun x hx => h x (List.mem_cons_of_mem _ hx)
    rw [List.foldl_cons, ih _ hrest]
    simp only [osLineStepV12, hl]
    split
    · simp_all
    · split <;> rfl

/-- C7 counterexample: in v.1.1.0's os-release parsing a later
`PRETTY_NAME=` line overrides the `os_name` already set by an earlier
`NAME=` line (so "a later matching line never overrides an already-set
os_name" is false); and in v1.2.0 there is no `NAME=`/`ID=` fallback at
all: a file whose only name-bearing line is `NAME=` leaves os_name unset. -/
theorem C7_counterexample :
    (parseOsReleaseV11 ["NAME=\x22Foo\x22"]).os_name = some "Foo" ∧
    (parseOsReleaseV11 ["NAME=\x22Foo\x22", "PRETTY_NAME=\x22Bar\x22"]).os_name
        = some "Bar" ∧
    (parseOsReleaseV12 ["NAME=\x22Foo\x22"]).os_name = none := by decide

/-- C7 (amended): in v.1.1.0's `detect_os` the precedence
PRETTY_NAME > NAME > ID holds as follows: a `PRETTY_NAME=` line always
assigns os_name — even overriding an already-set value, in particular the
last such line wins regardless of what preceded it — while `NAME=` and
`ID=` lines assign os_name only when it is not already set (truthy), and no
line other than a `PRETTY_NAME=` line ever overrides a set os_name; in
v1.2.0's `detect_os` os_name comes from `PRETTY_NAME=` lines only, so a
file without one yields no os_name. -/
theorem C7_os_name_precedence :
    (∀ (st : OsParseSt) (line : String),
      strStarts line "PRETTY_NAME=" = true →
      osLineStepV11 st line
        = { st with os_name := some (cleanV11 (afterEq line)) }) ∧
    (∀ (st : OsParseSt) (line : String), truthy st.os_name = true →
      strStarts line "PRETTY_NAME=" = false →
      (osLineStepV11 st line).os_name = st.os_name) ∧
    (∀ (st : OsParseSt) (line : String), truthy st.os_name = false →
      strStarts line "PRETTY_NAME=" = false →
      strStarts line "NAME=" = true →
      (osLineStepV11 st line).os_name = some (cleanV11 (afterEq line))) ∧
    (∀ (lines : List String) (l : String),
      strStarts l "PRETTY_NAME=" = true →
      (parseOsReleaseV11 (lines ++ [l])).os_name
        = some (cleanV11 (afterEq l))) ∧
    (∀ lines : List String,
      (∀ l ∈ lines, strStarts l "PRETTY_NAME=" = false) →
      (parseOsReleaseV12 lines).os_name = none) := by
  have h1 : ∀ (st : OsParseSt) (line : String),
      strStarts line "PRETTY_NAME=" = true →
      osLineStepV11 st line
        = { st with os_name := some (cleanV11 (afterEq line)) } := by
    intro st line hp
    simp [osLineStepV11, hp]
  refine ⟨h1, ?_, ?_, ?_, ?_⟩
  · intro st line ht hp
    simp only [osLineStepV11, hp, ht, Bool.not_true, Bool.and_false]
    split
    · simp_all
    · split
      · rfl
      · split
        · split <;> rfl
        · rfl
  · intro st line ht hp hn
    simp [osLineStepV11, hp, hn, ht]
  · intro lines l hp
    unfold parseOsReleaseV11
    rw [List.foldl_append, List.foldl_cons, List.foldl_nil,
      h1 _ _ hp]
  · intro lines h
    exact parseV12_no_pretty lines ⟨none, none⟩ h

/-- Witness for C7: a PRETTY_NAME line appended after a NAME line wins, and
v1.2.0 ignores a NAME-only file. -/
theorem C7_witness :
    (parseOsReleaseV11 (["NAME=\x22Foo\x22"] ++ ["PRETTY_NAME=\x22Bar\x22"])).os_name
        = some (cleanV11 (afterEq "PRETTY_NAME=\x22Bar\x22")) ∧
    (parseOsReleaseV12 ["NAME=\x22Foo\x22"]).os_name = none :=
  ⟨C7_os_name_precedence.2.2.2.1 ["NAME=\x22Foo\x22"] "PRETTY_NAME=\x22Bar\x22"
      (by decide),
   C7_os_name_precedence.2.2.2.2 ["NAME=\x22Foo\x22"]
      (by intro l hl; simp only [List.mem_singleton] at hl; subst hl; decide)⟩

/-! ## C8 -/

/-- C8: `detect_os` computes its result at most once. From the initial
module state, the first call performs exactly one platform read and caches
its tuple; a second call — even if the platform sources would now yield a
different tuple `c2` — returns the first call's tuple bit-identically,
leaves the state unchanged, and performs no further read; in general any
call on a cached state returns the cached tuple with no state change. -/
theorem C8_detect_os_cached_idempotent
    (c1 c2 : Option String × Option String × Option String) :
    (detect_os_cached c2 (detect_os_cached c1 osCacheInit).2).1
        = (detect_os_cached c1 osCacheInit).1 ∧
    (detect_os_cached c2 (detect_os_cached c1 osCacheInit).2).2
        = (detect_os_cached c1 osCacheInit).2 ∧
    (detect_os_cached c1 osCacheInit).2.reads = 1 ∧
    (∀ (st : OsCacheSt) t, st.cache = some t →
      detect_os_cached c2 st = (t, st)) := by
  refine ⟨rfl, rfl, rfl, ?_⟩
  intro st t h
  simp [detect_os_cached, h]

/-- Witness for C8: two calls with different would-be detection results. -/
theorem C8_witness :
    (detect_os_cached (some "windows", none, none)
        (detect_os_cached (some "linux", some "Ubuntu", none) osCacheInit).2).1
      = (some "linux", some "Ubuntu", none) ∧
    detect_os_cached (some "windows", none, none)
        (⟨some (some "linux", some "Ubuntu", none), 1⟩ : OsCacheSt)
      = ((some "linux", some "Ubuntu", none),
         ⟨some (some "linux", some "Ubuntu", none), 1⟩) :=
  ⟨(C8_detect_os_cached_idempotent (some "linux", some "Ubuntu", none)
      (some "windows", none, none)).1,
   (C8_detect_os_cached_idempotent (some "linux", some "Ubuntu", none)
      (some "windows", none, none)).2.2.2 _ _ rfl⟩

/-! ## C9 -/

/-- C9: the sampling loop never terminates because of a cycle failure:
while no cycle raises the operator interrupt the loop is still running
after any number of iterations; a cycle raising any other exception is
logged and the loop proceeds; the first interrupting cycle — and only
that — ends the process cleanly with exit code 0. -/
theorem C9_loop_never_dies_on_errors (outs : Nat → CycleOutcome) :
    (∀ n, (∀ i, i < n → outs i ≠ .interrupt) → runLoopV12 outs n = none) ∧
    (∀ m, loopIterV12 (.err m) = .next ["Unexpected error: " ++ m]) ∧
    loopIterV12 .interrupt = .exitClean 0 ["Agent stopped"] ∧
    (∀ n, (∀ i, i < n → outs i ≠ .interrupt) → outs n = .interrupt →
      runLoopV12 outs (n + 1) = some 0) := by
  have h1 : ∀ n, (∀ i, i < n → outs i ≠ .interrupt) →
      runLoopV12 outs n = none := by
    intro n
    induction n with
    | zero => intro _; rfl
    | succ k ih =>
      intro h
      have hk := ih (fun i hi => h i (Nat.lt_succ_of_lt hi))
      have hout := h k (Nat.lt_succ_self k)
      simp only [runLoopV12, hk]
      cases ho : outs k with
      | ok => rfl
      | err m => rfl
      | interrupt => exact absurd ho hout
  refine ⟨h1, fun m => rfl, rfl, ?_⟩
  intro n hpre hn
  simp only [runLoopV12, h1 n hpre, hn]
  rfl

/-- Witness for C9: cycles that always fail never stop the loop; an
interrupt at cycle 2 exits cleanly. -/
theorem C9_witness :
    runLoopV12 (fun _ => .err "boom") 50 = none ∧
    runLoopV12 (fun n => if n = 2 then .interrupt else .err "boom") 3
      = some 0 :=
  ⟨(C9_loop_never_dies_on_errors (fun _ => .err "boom")).1 50
      (by intro i _; simp),
   (C9_loop_never_dies_on_errors
      (fun n => if n = 2 then .interrupt else .err "boom")).2.2.2 2
      (by intro i hi; interval_cases i <;> simp) (by simp)⟩

/-! ## C10 -/

/-- C10: an empty SERVER_TOKEN environment value is treated exactly like an
unset one — `config.json` is consulted and startup behaves identically to
the unset case, failing fatally when the file is unreadable or its api_key
is missing or empty — while a non-empty environment token short-circuits
the `or` so config.json is never consulted. -/
theorem C10_empty_env_token_is_unset (cfg : ConfigRead) (s : String)
    (hs : s ≠ "") (probes : Probe → ProbeResult)
    (instMeta : String → Option String) (sensors : Option (Nat × Nat)) :
    resolveToken (some "") cfg = resolveToken none cfg ∧
    (resolveToken (some "") cfg).2 = true ∧
    resolveToken (some s) cfg = (some s, false) ∧
    agentStartV12 (some "") cfg probes instMeta sensors
        = agentStartV12 none cfg probes instMeta sensors ∧
    ((load_config_token cfg = none ∨ load_config_token cfg = some "") →
      agentStartV12 (some "") cfg probes instMeta sensors
        = (some 1, [Ev.evLog "ERROR: SERVER_TOKEN not found"])) := by
  have ha : resolveToken (some "") cfg = resolveToken none cfg := by
    simp [resolveToken, truthy]
  refine ⟨ha, by simp [resolveToken, truthy], by simp [resolveToken, truthy, hs],
    by simp only [agentStartV12, ha], ?_⟩
  intro hlc
  have hT : truthy (resolveToken (some "") cfg).1 = false := by
    rcases hlc with h | h <;> simp [resolveToken, truthy, h]
  simp [agentStartV12, hT]

/-- Witness for C10: empty env token with an unreadable config.json, and a
non-empty env token. -/
theorem C10_witness :
    resolveToken (some "") ConfigRead.fileErr = resolveToken none .fileErr ∧
    resolveToken (some "tok") .fileErr = (some "tok", false) ∧
    agentStartV12 (some "") .fileErr (fun _ => .exc) (fun _ => none) none
      = (some 1, [Ev.evLog "ERROR: SERVER_TOKEN not found"]) :=
  ⟨(C10_empty_env_token_is_unset .fileErr "tok" (by decide) (fun _ => .exc)
      (fun _ => none) none).1,
   (C10_empty_env_token_is_unset .fileErr "tok" (by decide) (fun _ => .exc)
      (fun _ => none) none).2.2.1,
   (C10_empty_env_token_is_unset .fileErr "tok" (by decide) (fun _ => .exc)
      (fun _ => none) none).2.2.2.2 (Or.inl rfl)⟩
